import Mathlib

/-!
Verification of the muni-quick-tracker cache/scheduler/projection core
(`src/main.go`) against its natural-language specification.

Modelling conventions:
* A Go `time.Time` is modelled as an `Int`: nanoseconds since the Unix epoch,
  with the local time zone taken to be UTC (offset zero).
* Go `time.Duration` arithmetic is exact integer nanoseconds.  The source
  compares `Duration.Minutes()` (a float) against the constants 40 and 90 and
  truncates it with `int(...)`; for every sub-astronomical duration these float
  operations are exact, so they are embedded as the integer comparisons
  `d > 40*60*10^9`, `d > 90*60*10^9`, `d < 90*60*10^9`, and as truncated
  integer division `Int.tdiv d (60*10^9)` (Go's `int(float64)` conversion
  truncates toward zero, matching `Int.tdiv`).
* `time.Parse(time.RFC3339, s)` is modelled by `parseRFC3339`, an executable
  strict parser for the `YYYY-MM-DDTHH:MM:SSZ` form of RFC 3339 (a faithful
  subset: it validates digit positions, month/day/hour/minute/second ranges
  including leap years, and returns epoch nanoseconds).  All functions of the
  source that call `time.Parse` call this single model.
* Network I/O is abstracted: `fetchStopArrivals` embeds the response-decoding
  loop of the Go function of the same name (the HTTP body having been decoded
  into the list of `MonitoredStopVisit` values), and the refresh scheduler
  takes the outcome of each upstream fetch as an oracle function.
-/

namespace MuniTracker

/-- Nanoseconds in one minute, the divisor used by `Duration.Minutes()`. -/
def nsPerMinute : Int := 60000000000

/-- Local hour of day (0–23) of an epoch-nanosecond instant, UTC offset zero
(models `time.Time.Hour`). -/
def hourOfDay (t : Int) : Int :=
  ((t.ediv 1000000000).emod 86400).ediv 3600

/-- Gregorian leap-year test. -/
def isLeapYear (y : Int) : Bool :=
  y.emod 4 = 0 && (y.emod 100 ≠ 0 || y.emod 400 = 0)

/-- Days in a month, validating the calendar like Go's `time.Parse` does. -/
def daysInMonth (y m : Int) : Int :=
  if m = 1 then 31
  else if m = 2 then (if isLeapYear y then 29 else 28)
  else if m = 3 then 31
  else if m = 4 then 30
  else if m = 5 then 31
  else if m = 6 then 30
  else if m = 7 then 31
  else if m = 8 then 31
  else if m = 9 then 30
  else if m = 10 then 31
  else if m = 11 then 30
  else 31

/-- Days from the civil epoch 1970-01-01 to year/month/day (proleptic
Gregorian, standard era-based algorithm). -/
def daysFromCivil (y m d : Int) : Int :=
  let yy := if m ≤ 2 then y - 1 else y
  let era := yy.ediv 400
  let yoe := yy - era * 400
  let mp := (m + 9).emod 12
  let doy := (153 * mp + 2).ediv 5 + d - 1
  let doe := yoe * 365 + yoe.ediv 4 - yoe.ediv 100 + doy
  era * 146097 + doe - 719468

/-- Epoch nanoseconds of a UTC civil date-time. -/
def epochNs (y m d h mi s : Int) : Int :=
  (daysFromCivil y m d * 86400 + h * 3600 + mi * 60 + s) * 1000000000

/-- Numeric value of a decimal digit character. -/
def digitVal (c : Char) : Int :=
  Int.ofNat (c.toNat - '0'.toNat)

/-- Model of Go `time.Parse(time.RFC3339, s)`: accepts the strict
`YYYY-MM-DDTHH:MM:SSZ` subset of RFC 3339, returning epoch nanoseconds, and
`none` on any malformed input. -/
def parseRFC3339 (s : String) : Option Int :=
  match s.toList with
  | [y1, y2, y3, y4, '-', m1, m2, '-', d1, d2, 'T',
     h1, h2, ':', mi1, mi2, ':', s1, s2, 'Z'] =>
    if [y1, y2, y3, y4, m1, m2, d1, d2, h1, h2, mi1, mi2, s1, s2].all Char.isDigit then
      let y := digitVal y1 * 1000 + digitVal y2 * 100 + digitVal y3 * 10 + digitVal y4
      let mo := digitVal m1 * 10 + digitVal m2
      let d := digitVal d1 * 10 + digitVal d2
      let h := digitVal h1 * 10 + digitVal h2
      let mi := digitVal mi1 * 10 + digitVal mi2
      let sec := digitVal s1 * 10 + digitVal s2
      if 1 ≤ mo ∧ mo ≤ 12 ∧ 1 ≤ d ∧ d ≤ daysInMonth y mo ∧
         h ≤ 23 ∧ mi ≤ 59 ∧ sec ≤ 59 then
        some (epochNs y mo d h mi sec)
      else none
    else none
  | _ => none

/-- `type Arrival struct` of `src/main.go` (JSON response entry). -/
structure Arrival where
  arrivalTime : String
  minutes : Int
  destination : String
  lineType : String
deriving Repr, DecidableEq

/-- `type DirectionArrivals struct` of `src/main.go`.  Empty strings model the
unset (`omitempty`) JSON fields. -/
structure DirectionArrivals where
  label : String
  stopID : String
  arrivals : List Arrival
  error : String
  qualityWarning : String
  qualityLevel : String
deriving Repr, DecidableEq

/-- `type StopArrivals struct` of `src/main.go`. -/
structure StopArrivals where
  name : String
  line : String
  directions : List DirectionArrivals
deriving Repr, DecidableEq

/-- `type ArrivalsResponse struct` of `src/main.go`. -/
structure ArrivalsResponse where
  stops : List StopArrivals
  lastUpdated : String
deriving Repr, DecidableEq

/-- `type Direction struct` of `src/main.go` (configuration). -/
structure Direction where
  label : String
  stopID : String
deriving Repr, DecidableEq

/-- `type Stop struct` of `src/main.go` (configuration). -/
structure Stop where
  name : String
  line : String
  agency : String
  directions : List Direction
deriving Repr, DecidableEq

/-- `type MonitoredCall struct` of `src/main.go` (upstream response leaf). -/
structure MonitoredCall where
  expectedArrivalTime : String
  expectedDepartureTime : String
deriving Repr, DecidableEq

/-- `type MonitoredVehicleJourney struct` of `src/main.go`. -/
structure MonitoredVehicleJourney where
  lineRef : String
  destinationName : String
  monitoredCall : MonitoredCall
deriving Repr, DecidableEq

/-- `type MonitoredStopVisit struct` of `src/main.go`. -/
structure MonitoredStopVisit where
  monitoredVehicleJourney : MonitoredVehicleJourney
deriving Repr, DecidableEq

/-- `type ArrivalsCache struct` of `src/main.go` (the `sync.RWMutex` is a
concurrency artifact with no sequential content). -/
structure ArrivalsCache where
  data : ArrivalsResponse
  lastFetched : Int
deriving Repr, DecidableEq

/-- The response-decoding loop of `fetchStopArrivals` (`src/main.go` lines
186–211): for each monitored stop visit use the expected arrival time, falling
back to the expected departure time when the former is empty; skip the visit if
both are empty or the chosen timestamp fails RFC 3339 validation; otherwise
emit an `Arrival` carrying the raw timestamp string, the destination name and
the line reference.  The surrounding HTTP request/decode is abstracted: the
argument is the decoded `MonitoredStopVisit` list. -/
def fetchStopArrivals (visits : List MonitoredStopVisit) : List Arrival :=
  visits.filterMap (fun visit =>
    let timeStr :=
      if visit.monitoredVehicleJourney.monitoredCall.expectedArrivalTime = "" then
        visit.monitoredVehicleJourney.monitoredCall.expectedDepartureTime
      else
        visit.monitoredVehicleJourney.monitoredCall.expectedArrivalTime
    if timeStr = "" then none
    else
      match parseRFC3339 timeStr with
      | none => none
      | some _ =>
        some { arrivalTime := timeStr
               minutes := 0
               destination := visit.monitoredVehicleJourney.destinationName
               lineType := visit.monitoredVehicleJourney.lineRef })

/-- The gap loop of `detectQualityIssues` (`src/main.go` lines 235–240):
whether some consecutive pair of timestamps is more than 40 minutes apart
(`Duration.Minutes() > 40`, exactly `d > 40 * nsPerMinute` in nanoseconds). -/
def hasLargeGap : List Int → Bool
  | t0 :: t1 :: rest =>
    if t1 - t0 > 40 * nsPerMinute then true else hasLargeGap (t1 :: rest)
  | _ => false

/-- The checks of `detectQualityIssues` run over the successfully parsed
timestamps (`src/main.go` lines 230–257): empty-times early return, the large
gap check, the far-future first arrival check during normal hours, and the
sparse-data check during peak hours. -/
def qualityFromTimes (times : List Int) (now : Int) : String × String :=
  match times with
  | [] => ("", "good")
  | t0 :: rest =>
    if hasLargeGap (t0 :: rest) then
      ("Incomplete data - large gap in arrivals", "warning")
    else
      let firstNs := t0 - now
      let hour := hourOfDay now
      if (6 ≤ hour ∧ hour < 22) ∧ firstNs > 90 * nsPerMinute then
        ("Next arrival unusually far away", "warning")
      else if ((7 ≤ hour ∧ hour ≤ 9) ∨ (16 ≤ hour ∧ hour ≤ 19)) ∧
              rest = [] ∧ firstNs < 90 * nsPerMinute then
        ("Limited schedule data available", "warning")
      else ("", "good")

/-- `detectQualityIssues` of `src/main.go` (lines 215–258): returns the
quality warning message and level for one direction's arrivals at time `now`.
Arrivals whose timestamp fails RFC 3339 parsing are skipped when building the
`times` list. -/
def detectQualityIssues (arrivals : List Arrival) (now : Int) : String × String :=
  if arrivals.isEmpty then ("", "good")
  else qualityFromTimes (arrivals.filterMap (fun arr => parseRFC3339 arr.arrivalTime)) now

/-- One direction's fetch inside `refreshCache` (`src/main.go` lines 276–295):
the direction entry starts with empty arrivals; on fetch failure its error is
set to `"Unable to fetch"`, on success its arrivals are the fetched list.  The
upstream call (HTTP plus `fetchStopArrivals`) is abstracted as the `fetch`
oracle, `none` meaning the Go call returned an error. -/
def refreshDirection (fetch : String → String → Option (List Arrival))
    (agency : String) (dir : Direction) : DirectionArrivals :=
  match fetch agency dir.stopID with
  | none =>
    { label := dir.label, stopID := dir.stopID, arrivals := []
      error := "Unable to fetch", qualityWarning := "", qualityLevel := "" }
  | some arrivals =>
    { label := dir.label, stopID := dir.stopID, arrivals := arrivals
      error := "", qualityWarning := "", qualityLevel := "" }

/-- The snapshot built by one cycle of `refreshCache` (`src/main.go` lines
264–296): every configured stop and direction is visited in configuration
order and its entry filled from its own fetch outcome. -/
def refreshCache (fetch : String → String → Option (List Arrival))
    (stops : List Stop) (lastUpdated : String) : ArrivalsResponse :=
  { stops := stops.map (fun stop =>
      { name := stop.name
        line := stop.line
        directions := stop.directions.map (refreshDirection fetch stop.agency) })
    lastUpdated := lastUpdated }

/-- The cache write at the end of `refreshCache` (`src/main.go` lines
299–302): the shared cache's contents are replaced in whole by the new
snapshot, independent of the previous contents. -/
def refreshCacheUpdate (_prev : ArrivalsCache)
    (fetch : String → String → Option (List Arrival))
    (stops : List Stop) (lastUpdated : String) (now : Int) : ArrivalsCache :=
  { data := refreshCache fetch stops lastUpdated, lastFetched := now }

/-- The per-arrival recomputation loop of `handleArrivals` (`src/main.go`
lines 382–400): parse each cached arrival's timestamp (skipping parse
failures), recompute `minutes = int((arrivalTime - now).Minutes())` — Go's
`int(float64)` truncates toward zero, i.e. `Int.tdiv` — and drop arrivals with
`minutes < 0`. -/
def validArrivalsOf (arrivals : List Arrival) (now : Int) : List Arrival :=
  arrivals.filterMap (fun arrival =>
    match parseRFC3339 arrival.arrivalTime with
    | none => none
    | some arrivalTime =>
      let minutes := (arrivalTime - now).tdiv nsPerMinute
      if minutes < 0 then none
      else
        some { arrivalTime := arrival.arrivalTime
               minutes := minutes
               destination := arrival.destination
               lineType := arrival.lineType })

/-- The per-direction body of `handleArrivals` (`src/main.go` lines 368–413):
an errored direction propagates its error with empty arrivals and untouched
quality fields; otherwise the surviving arrivals are truncated to 3 and the
quality analyzer runs on the truncated list. -/
def projectDirection (dir : DirectionArrivals) (now : Int) : DirectionArrivals :=
  if dir.error ≠ "" then
    { label := dir.label, stopID := dir.stopID, arrivals := []
      error := dir.error, qualityWarning := "", qualityLevel := "" }
  else
    let validArrivals := (validArrivalsOf dir.arrivals now).take 3
    let q := detectQualityIssues validArrivals now
    { label := dir.label, stopID := dir.stopID, arrivals := validArrivals
      error := dir.error, qualityWarning := q.1, qualityLevel := q.2 }

/-- Two-digit zero padding used by the clock display format. -/
def pad2 (n : Int) : String :=
  if n < 10 then "0" ++ toString n else toString n

/-- Model of Go's `time.Now().Format("3:04:05 PM")` on an epoch-nanosecond
instant (UTC local zone). -/
def formatClock (t : Int) : String :=
  let secs := (t.ediv 1000000000).emod 86400
  let h24 := secs.ediv 3600
  let mi := (secs.emod 3600).ediv 60
  let s := secs.emod 60
  let h12 := if h24.emod 12 = 0 then 12 else h24.emod 12
  let ampm := if h24 < 12 then "AM" else "PM"
  toString h12 ++ ":" ++ pad2 mi ++ ":" ++ pad2 s ++ " " ++ ampm

/-- `handleArrivals` of `src/main.go` (lines 336–417) as the read-time
projection: given the cached snapshot and the request-time clock, either the
loading response (cache never filled) or the per-direction projection of every
cached stop.  The two `time.Now()` calls of the handler are nanoseconds apart
and modelled as the single instant `now`; JSON encoding is external. -/
def handleArrivals (cachedData : ArrivalsResponse) (now : Int) : ArrivalsResponse :=
  if cachedData.stops.isEmpty then
    { stops := [], lastUpdated := "Loading..." }
  else
    { stops := cachedData.stops.map (fun stop =>
        { name := stop.name
          line := stop.line
          directions := stop.directions.map (fun dir => projectDirection dir now) })
      lastUpdated := formatClock now }

/-- Modelled from the spec: the per-arrival minutes the claim prescribes,
`round_down((absolute_arrival_time - now) in minutes)` — a true floor
(`Int.ediv`). -/
def claimFloorMinutes (t now : Int) : Int :=
  (t - now).ediv nsPerMinute

/-- Modelled from the spec: the projection loop as claim C1 words it — floor
the minute difference and drop exactly the arrivals whose floored minutes is
negative. -/
def claimFloorValidArrivalsOf (arrivals : List Arrival) (now : Int) : List Arrival :=
  arrivals.filterMap (fun arrival =>
    match parseRFC3339 arrival.arrivalTime with
    | none => none
    | some arrivalTime =>
      let minutes := claimFloorMinutes arrivalTime now
      if minutes < 0 then none
      else
        some { arrivalTime := arrival.arrivalTime
               minutes := minutes
               destination := arrival.destination
               lineType := arrival.lineType })

/-- Spec-side predicate for the amended claim C1: an arrival is kept exactly
when its timestamp parses and its truncated-toward-zero minute difference is
nonnegative. -/
def keepsArrival (now : Int) (a : Arrival) : Bool :=
  match parseRFC3339 a.arrivalTime with
  | none => false
  | some t => decide (0 ≤ (t - now).tdiv nsPerMinute)

/-- Spec-side recomputation for the amended claim C1: a kept arrival is
re-emitted unchanged except that its minutes field becomes the
truncated-toward-zero minute difference. -/
def recomputeArrival (now : Int) (a : Arrival) : Arrival :=
  match parseRFC3339 a.arrivalTime with
  | none => a
  | some t => { a with minutes := (t - now).tdiv nsPerMinute }

/-- Modelled from the spec (claim C9 words): choose the expected arrival time
when present (non-empty), else the expected departure time when present, else
nothing. -/
def chosenTimestamp (c : MonitoredCall) : Option String :=
  if c.expectedArrivalTime ≠ "" then some c.expectedArrivalTime
  else if c.expectedDepartureTime ≠ "" then some c.expectedDepartureTime
  else none

/-- Modelled from the spec (claim C9 words): a visit yields an arrival exactly
when its chosen timestamp exists and passes strict validation; the arrival
carries that raw timestamp, the destination name and the line reference. -/
def visitToArrival (v : MonitoredStopVisit) : Option Arrival :=
  match chosenTimestamp v.monitoredVehicleJourney.monitoredCall with
  | none => none
  | some ts =>
    match parseRFC3339 ts with
    | none => none
    | some _ =>
      some { arrivalTime := ts
             minutes := 0
             destination := v.monitoredVehicleJourney.destinationName
             lineType := v.monitoredVehicleJourney.lineRef }

/-- A `filterMap` only depends on the elements it does not reject. -/
theorem filterMap_eq_filterMap_filter {α β : Type} (p : α → Option β) :
    ∀ l : List α, l.filterMap p = (l.filter (fun a => (p a).isSome)).filterMap p := by
  intro l
  induction l with
  | nil => rfl
  | cons a l ih =>
    by_cases h : (p a).isSome
    · rcases Option.isSome_iff_exists.mp h with ⟨b, hb⟩
      simp [List.filter_cons, h, List.filterMap_cons, hb, ih]
    · have hn : p a = none := Option.not_isSome_iff_eq_none.mp h
      simp [List.filter_cons, h, List.filterMap_cons, hn, ih]

/-- Characterization of the gap loop: it fires exactly when some consecutive
pair of timestamps is more than 40 minutes apart. -/
theorem hasLargeGap_iff (ts : List Int) :
    hasLargeGap ts = true ↔
      ∃ l t0 t1 r, ts = l ++ t0 :: t1 :: r ∧ t1 - t0 > 40 * nsPerMinute := by
  constructor
  · intro h
    induction ts with
    | nil => simp [hasLargeGap] at h
    | cons a rest ih =>
      match rest, h with
      | [], h => simp [hasLargeGap] at h
      | b :: rest, h =>
        by_cases hab : b - a > 40 * nsPerMinute
        · exact ⟨[], a, b, rest, rfl, hab⟩
        · have h2 : hasLargeGap (b :: rest) = true := by
            simpa [hasLargeGap, hab] using h
          rcases ih h2 with ⟨l, t0, t1, r, hl, hgt⟩
          exact ⟨a :: l, t0, t1, r, by simp [hl], hgt⟩
  · rintro ⟨l, t0, t1, r, rfl, hgt⟩
    induction l with
    | nil => simp [hasLargeGap, hgt]
    | cons a l ih =>
      cases l with
      | nil =>
        by_cases hb : t0 - a > 40 * nsPerMinute <;>
          simp [hasLargeGap, hb, hgt]
      | cons b l =>
        by_cases hb : b - a > 40 * nsPerMinute
        · simp [hasLargeGap, hb]
        · simp only [List.cons_append, hasLargeGap, hb, if_false]
          exact ih

/-- Every arrival emitted by the recomputation loop has nonnegative minutes,
and its minutes field is the truncated minute difference of its own
timestamp. -/
theorem mem_validArrivalsOf {arrivals : List Arrival} {now : Int} {a : Arrival}
    (ha : a ∈ validArrivalsOf arrivals now) :
    0 ≤ a.minutes ∧
      ∀ t, parseRFC3339 a.arrivalTime = some t →
        a.minutes = (t - now).tdiv nsPerMinute := by
  simp only [validArrivalsOf, List.mem_filterMap] at ha
  obtain ⟨orig, _, hf⟩ := ha
  rcases hp : parseRFC3339 orig.arrivalTime with _ | t'
  · rw [hp] at hf
    simp at hf
  · rw [hp] at hf
    by_cases hneg : (t' - now).tdiv nsPerMinute < 0
    · simp [hneg] at hf
    · simp only [hneg, if_false] at hf
      obtain rfl := Option.some.inj hf
      refine ⟨Int.not_lt.mp hneg, fun t ht => ?_⟩
      have : some t' = some t := hp ▸ ht
      obtain rfl := Option.some.inj this
      rfl

/-- Every arrival in a projected direction has nonnegative minutes and the
truncated minute difference as its minutes field. -/
theorem mem_projectDirection {dir : DirectionArrivals} {now : Int} {a : Arrival}
    (ha : a ∈ (projectDirection dir now).arrivals) :
    0 ≤ a.minutes ∧
      ∀ t, parseRFC3339 a.arrivalTime = some t →
        a.minutes = (t - now).tdiv nsPerMinute := by
  by_cases he : dir.error = ""
  · have : a ∈ validArrivalsOf dir.arrivals now := by
      have hmem : a ∈ (validArrivalsOf dir.arrivals now).take 3 := by
        simpa [projectDirection, he] using ha
      exact List.mem_of_mem_take hmem
    exact mem_validArrivalsOf this
  · simp [projectDirection, he] at ha

/-- C2: For every cached snapshot and every value of `now`, the projection
produced by `handleArrivals` never contains an arrival whose minutes field is
strictly negative. -/
theorem C2_handleArrivals_no_negative_minutes
    (cachedData : ArrivalsResponse) (now : Int)
    (stop : StopArrivals) (dir : DirectionArrivals) (a : Arrival)
    (hs : stop ∈ (handleArrivals cachedData now).stops)
    (hd : dir ∈ stop.directions) (ha : a ∈ dir.arrivals) :
    0 ≤ a.minutes := by
  by_cases hc : cachedData.stops.isEmpty
  · simp [handleArrivals, hc] at hs
  · simp only [handleArrivals, hc, if_false] at hs
    rcases List.mem_map.mp hs with ⟨s0, _, rfl⟩
    rcases List.mem_map.mp hd with ⟨d0, _, rfl⟩
    exact (mem_projectDirection ha).1

/-- Witness for C2 at a concrete snapshot and instant. -/
theorem C2_witness :
    ((⟨"N", "L", [⟨"In", "S1", [⟨"2024-06-01T12:10:00Z", 10, "D", "L1"⟩],
        "", "", "good"⟩]⟩ : StopArrivals) ∈
      (handleArrivals
        ⟨[⟨"N", "L", [⟨"In", "S1", [⟨"2024-06-01T12:10:00Z", 0, "D", "L1"⟩],
            "", "", ""⟩]⟩], "x"⟩
        (epochNs 2024 6 1 12 0 0)).stops) ∧
    ((⟨"In", "S1", [⟨"2024-06-01T12:10:00Z", 10, "D", "L1"⟩], "", "", "good"⟩ :
        DirectionArrivals) ∈
      (⟨"N", "L", [⟨"In", "S1", [⟨"2024-06-01T12:10:00Z", 10, "D", "L1"⟩],
          "", "", "good"⟩]⟩ : StopArrivals).directions) ∧
    ((⟨"2024-06-01T12:10:00Z", 10, "D", "L1"⟩ : Arrival) ∈
      (⟨"In", "S1", [⟨"2024-06-01T12:10:00Z", 10, "D", "L1"⟩], "", "", "good"⟩ :
        DirectionArrivals).arrivals) ∧
    0 ≤ (⟨"2024-06-01T12:10:00Z", 10, "D", "L1"⟩ : Arrival).minutes :=
  ⟨by decide, by decide, by decide,
    C2_handleArrivals_no_negative_minutes
      ⟨[⟨"N", "L", [⟨"In", "S1", [⟨"2024-06-01T12:10:00Z", 0, "D", "L1"⟩],
          "", "", ""⟩]⟩], "x"⟩
      (epochNs 2024 6 1 12 0 0)
      ⟨"N", "L", [⟨"In", "S1", [⟨"2024-06-01T12:10:00Z", 10, "D", "L1"⟩],
          "", "", "good"⟩]⟩
      ⟨"In", "S1", [⟨"2024-06-01T12:10:00Z", 10, "D", "L1"⟩], "", "", "good"⟩
      ⟨"2024-06-01T12:10:00Z", 10, "D", "L1"⟩
      (by decide) (by decide) (by decide)⟩

/-- C3: a direction cached with a non-empty fetch error is projected to the
same error marker with an empty arrivals list and empty quality fields (the
quality analyzer is not consulted: the quality level is left empty, not
`"good"`). -/
theorem C3_fetch_error_propagation (dir : DirectionArrivals) (now : Int)
    (h : dir.error ≠ "") :
    projectDirection dir now =
      { label := dir.label, stopID := dir.stopID, arrivals := []
        error := dir.error, qualityWarning := "", qualityLevel := "" } := by
  simp [projectDirection, h]

/-- Witness for C3 at a concrete errored direction. -/
theorem C3_witness :
    (⟨"In", "S1", [⟨"2024-06-01T12:10:00Z", 0, "D", "L1"⟩],
        "Unable to fetch", "", ""⟩ : DirectionArrivals).error ≠ "" ∧
    projectDirection
        ⟨"In", "S1", [⟨"2024-06-01T12:10:00Z", 0, "D", "L1"⟩],
          "Unable to fetch", "", ""⟩ (epochNs 2024 6 1 12 0 0) =
      ⟨"In", "S1", [], "Unable to fetch", "", ""⟩ :=
  ⟨by decide,
    C3_fetch_error_propagation
      ⟨"In", "S1", [⟨"2024-06-01T12:10:00Z", 0, "D", "L1"⟩],
        "Unable to fetch", "", ""⟩
      (epochNs 2024 6 1 12 0 0) (by decide)⟩

/-- C1 counterexample: the claim prescribes `minutes = floor` and dropping
`minutes < 0`, but on an arrival 30 seconds in the past (floor minutes `-1`)
the code keeps the arrival with minutes `0` (Go's `int(float64)` truncates
toward zero), while the claim's floor projection drops it. -/
theorem C1_counterexample :
    validArrivalsOf [⟨"2024-06-01T12:00:00Z", 0, "D", "L1"⟩]
        (epochNs 2024 6 1 12 0 0 + 30000000000) =
      [⟨"2024-06-01T12:00:00Z", 0, "D", "L1"⟩] ∧
    claimFloorValidArrivalsOf [⟨"2024-06-01T12:00:00Z", 0, "D", "L1"⟩]
        (epochNs 2024 6 1 12 0 0 + 30000000000) = [] ∧
    claimFloorMinutes (epochNs 2024 6 1 12 0 0)
        (epochNs 2024 6 1 12 0 0 + 30000000000) = -1 := by
  refine ⟨?_, ?_, ?_⟩ <;> decide

/-- C1 amended: the projector recomputes each cached arrival's minutes as the
minute difference truncated toward zero (`Int.tdiv`, matching Go's
`int(float64)`), and keeps exactly the arrivals whose timestamp parses and
whose truncated minutes is nonnegative (so an arrival less than one full
minute in the past is still kept, with minutes `0`), in cached order. -/
theorem C1_amended_truncated_projection (arrivals : List Arrival) (now : Int) :
    validArrivalsOf arrivals now =
      (arrivals.filter (keepsArrival now)).map (recomputeArrival now) := by
  induction arrivals with
  | nil => rfl
  | cons a l ih =>
    rcases hp : parseRFC3339 a.arrivalTime with _ | t
    · simp [validArrivalsOf, List.filterMap_cons, List.filter_cons,
        keepsArrival, hp] at ih ⊢
      exact ih
    · by_cases hneg : (t - now).tdiv nsPerMinute < 0
      · have hk : keepsArrival now a = false := by
          simp [keepsArrival, hp]
          omega
        simp [validArrivalsOf, List.filterMap_cons, List.filter_cons,
          hp, hneg, hk] at ih ⊢
        exact ih
      · have hk : keepsArrival now a = true := by
          simp [keepsArrival, hp]
          omega
        simp [validArrivalsOf, List.filterMap_cons, List.filter_cons,
          hp, hneg, hk, recomputeArrival] at ih ⊢
        exact ih

/-- C5: for an error-free direction the projector truncates the surviving
arrivals to at most three entries, in order (a sublist of the recomputed
list), and attaches exactly the quality analyzer's output on that truncated
list at the same instant. -/
theorem C5_truncate_then_analyze (dir : DirectionArrivals) (now : Int)
    (h : dir.error = "") :
    (projectDirection dir now).arrivals = (validArrivalsOf dir.arrivals now).take 3 ∧
    (projectDirection dir now).arrivals.length ≤ 3 ∧
    List.Sublist (projectDirection dir now).arrivals (validArrivalsOf dir.arrivals now) ∧
    ((projectDirection dir now).qualityWarning, (projectDirection dir now).qualityLevel) =
      detectQualityIssues (projectDirection dir now).arrivals now := by
  have harr : (projectDirection dir now).arrivals =
      (validArrivalsOf dir.arrivals now).take 3 := by
    simp [projectDirection, h]
  refine ⟨harr, ?_, ?_, ?_⟩
  · rw [harr]
    simp [List.length_take]
  · rw [harr]
    exact List.take_sublist 3 _
  · rw [harr]
    simp [projectDirection, h]

/-- Witness for C5 at a concrete direction with four surviving arrivals. -/
theorem C5_witness :
    (⟨"In", "S1",
        [⟨"2024-06-01T12:10:00Z", 0, "D", "L1"⟩,
         ⟨"2024-06-01T12:20:00Z", 0, "D", "L1"⟩,
         ⟨"2024-06-01T12:30:00Z", 0, "D", "L1"⟩,
         ⟨"2024-06-01T12:40:00Z", 0, "D", "L1"⟩], "", "", ""⟩ :
      DirectionArrivals).error = "" ∧
    ((projectDirection
        ⟨"In", "S1",
          [⟨"2024-06-01T12:10:00Z", 0, "D", "L1"⟩,
           ⟨"2024-06-01T12:20:00Z", 0, "D", "L1"⟩,
           ⟨"2024-06-01T12:30:00Z", 0, "D", "L1"⟩,
           ⟨"2024-06-01T12:40:00Z", 0, "D", "L1"⟩], "", "", ""⟩
        (epochNs 2024 6 1 12 0 0)).arrivals =
      (validArrivalsOf
        [⟨"2024-06-01T12:10:00Z", 0, "D", "L1"⟩,
         ⟨"2024-06-01T12:20:00Z", 0, "D", "L1"⟩,
         ⟨"2024-06-01T12:30:00Z", 0, "D", "L1"⟩,
         ⟨"2024-06-01T12:40:00Z", 0, "D", "L1"⟩]
        (epochNs 2024 6 1 12 0 0)).take 3 ∧
    (projectDirection
        ⟨"In", "S1",
          [⟨"2024-06-01T12:10:00Z", 0, "D", "L1"⟩,
           ⟨"2024-06-01T12:20:00Z", 0, "D", "L1"⟩,
           ⟨"2024-06-01T12:30:00Z", 0, "D", "L1"⟩,
           ⟨"2024-06-01T12:40:00Z", 0, "D", "L1"⟩], "", "", ""⟩
        (epochNs 2024 6 1 12 0 0)).arrivals.length ≤ 3 ∧
    List.Sublist
      (projectDirection
        ⟨"In", "S1",
          [⟨"2024-06-01T12:10:00Z", 0, "D", "L1"⟩,
           ⟨"2024-06-01T12:20:00Z", 0, "D", "L1"⟩,
           ⟨"2024-06-01T12:30:00Z", 0, "D", "L1"⟩,
           ⟨"2024-06-01T12:40:00Z", 0, "D", "L1"⟩], "", "", ""⟩
        (epochNs 2024 6 1 12 0 0)).arrivals
      (validArrivalsOf
        [⟨"2024-06-01T12:10:00Z", 0, "D", "L1"⟩,
         ⟨"2024-06-01T12:20:00Z", 0, "D", "L1"⟩,
         ⟨"2024-06-01T12:30:00Z", 0, "D", "L1"⟩,
         ⟨"2024-06-01T12:40:00Z", 0, "D", "L1"⟩]
        (epochNs 2024 6 1 12 0 0)) ∧
    ((projectDirection
        ⟨"In", "S1",
          [⟨"2024-06-01T12:10:00Z", 0, "D", "L1"⟩,
           ⟨"2024-06-01T12:20:00Z", 0, "D", "L1"⟩,
           ⟨"2024-06-01T12:30:00Z", 0, "D", "L1"⟩,
           ⟨"2024-06-01T12:40:00Z", 0, "D", "L1"⟩], "", "", ""⟩
        (epochNs 2024 6 1 12 0 0)).qualityWarning,
      (projectDirection
        ⟨"In", "S1",
          [⟨"2024-06-01T12:10:00Z", 0, "D", "L1"⟩,
           ⟨"2024-06-01T12:20:00Z", 0, "D", "L1"⟩,
           ⟨"2024-06-01T12:30:00Z", 0, "D", "L1"⟩,
           ⟨"2024-06-01T12:40:00Z", 0, "D", "L1"⟩], "", "", ""⟩
        (epochNs 2024 6 1 12 0 0)).qualityLevel) =
      detectQualityIssues
        (projectDirection
          ⟨"In", "S1",
            [⟨"2024-06-01T12:10:00Z", 0, "D", "L1"⟩,
             ⟨"2024-06-01T12:20:00Z", 0, "D", "L1"⟩,
             ⟨"2024-06-01T12:30:00Z", 0, "D", "L1"⟩,
             ⟨"2024-06-01T12:40:00Z", 0, "D", "L1"⟩], "", "", ""⟩
          (epochNs 2024 6 1 12 0 0)).arrivals
        (epochNs 2024 6 1 12 0 0)) :=
  ⟨rfl,
    C5_truncate_then_analyze
      ⟨"In", "S1",
        [⟨"2024-06-01T12:10:00Z", 0, "D", "L1"⟩,
         ⟨"2024-06-01T12:20:00Z", 0, "D", "L1"⟩,
         ⟨"2024-06-01T12:30:00Z", 0, "D", "L1"⟩,
         ⟨"2024-06-01T12:40:00Z", 0, "D", "L1"⟩], "", "", ""⟩
      (epochNs 2024 6 1 12 0 0) rfl⟩

/-- C7 counterexample: one arrival, projected 30 seconds before its time and
again one whole minute later.  It survives both projections (minutes `0` both
times, by truncation toward zero), so the claim demands the later minutes be
`0 - 1 = -1`; the code produces `0`. -/
theorem C7_counterexample :
    (projectDirection
        ⟨"In", "S1", [⟨"2024-06-01T12:00:00Z", 0, "D", "L1"⟩], "", "", ""⟩
        (epochNs 2024 6 1 12 0 0 - 30000000000)).arrivals =
      [⟨"2024-06-01T12:00:00Z", 0, "D", "L1"⟩] ∧
    (projectDirection
        ⟨"In", "S1", [⟨"2024-06-01T12:00:00Z", 0, "D", "L1"⟩], "", "", ""⟩
        (epochNs 2024 6 1 12 0 0 - 30000000000 + 1 * nsPerMinute)).arrivals =
      [⟨"2024-06-01T12:00:00Z", 0, "D", "L1"⟩] ∧
    (⟨"2024-06-01T12:00:00Z", 0, "D", "L1"⟩ : Arrival).minutes ≠
      (⟨"2024-06-01T12:00:00Z", 0, "D", "L1"⟩ : Arrival).minutes - 1 := by
  refine ⟨?_, ?_, ?_⟩ <;> decide

/-- C7 amended: for a fixed direction snapshot, if an arrival survives
projection at `now` and at `now + Δ` minutes (`Δ ≥ 0`), and its absolute time
has not yet passed at `now + Δ`, its projected minutes decreases by exactly
`Δ`.  (In the final sub-minute before being dropped, truncation toward zero
clamps the minutes at `0`, so the last decrement can be smaller — see the
counterexample.) -/
theorem C7_amended_minutes_shift (dir : DirectionArrivals) (now d t : Int)
    (a a' : Arrival)
    (ha : a ∈ (projectDirection dir now).arrivals)
    (ha' : a' ∈ (projectDirection dir (now + d * nsPerMinute)).arrivals)
    (hsame : a'.arrivalTime = a.arrivalTime)
    (hp : parseRFC3339 a.arrivalTime = some t)
    (hd : 0 ≤ d)
    (hfut : now + d * nsPerMinute ≤ t) :
    a'.minutes = a.minutes - d := by
  have h1 := (mem_projectDirection ha).2 t hp
  have h2 := (mem_projectDirection ha').2 t (hsame ▸ hp)
  rw [h1, h2]
  have hm : (0 : Int) ≤ nsPerMinute := by norm_num [nsPerMinute]
  have hdm : 0 ≤ d * nsPerMinute := mul_nonneg hd hm
  have hx : 0 ≤ t - (now + d * nsPerMinute) := by omega
  have hx0 : 0 ≤ t - now := by omega
  rw [Int.tdiv_eq_ediv hx hm, Int.tdiv_eq_ediv hx0 hm]
  have hsplit : t - (now + d * nsPerMinute) = (t - now) + (-d) * nsPerMinute := by
    ring
  rw [hsplit, Int.add_mul_ediv_right _ _ (by norm_num [nsPerMinute] : nsPerMinute ≠ 0)]
  ring

/-- Witness for C7 amended: the 12:40 arrival seen at 12:00 (40 minutes) and
five minutes later (35 minutes). -/
theorem C7_witness :
    (⟨"2024-06-01T12:40:00Z", 40, "D", "L1"⟩ : Arrival) ∈
      (projectDirection
        ⟨"In", "S1", [⟨"2024-06-01T12:40:00Z", 0, "D", "L1"⟩], "", "", ""⟩
        (epochNs 2024 6 1 12 0 0)).arrivals ∧
    (⟨"2024-06-01T12:40:00Z", 35, "D", "L1"⟩ : Arrival) ∈
      (projectDirection
        ⟨"In", "S1", [⟨"2024-06-01T12:40:00Z", 0, "D", "L1"⟩], "", "", ""⟩
        (epochNs 2024 6 1 12 0 0 + 5 * nsPerMinute)).arrivals ∧
    (⟨"2024-06-01T12:40:00Z", 35, "D", "L1"⟩ : Arrival).arrivalTime =
      (⟨"2024-06-01T12:40:00Z", 40, "D", "L1"⟩ : Arrival).arrivalTime ∧
    parseRFC3339 (⟨"2024-06-01T12:40:00Z", 40, "D", "L1"⟩ : Arrival).arrivalTime =
      some (epochNs 2024 6 1 12 40 0) ∧
    (0 : Int) ≤ 5 ∧
    epochNs 2024 6 1 12 0 0 + 5 * nsPerMinute ≤ epochNs 2024 6 1 12 40 0 ∧
    (⟨"2024-06-01T12:40:00Z", 35, "D", "L1"⟩ : Arrival).minutes =
      (⟨"2024-06-01T12:40:00Z", 40, "D", "L1"⟩ : Arrival).minutes - 5 :=
  ⟨by decide, by decide, by decide, by decide, by decide, by decide,
    C7_amended_minutes_shift
      ⟨"In", "S1", [⟨"2024-06-01T12:40:00Z", 0, "D", "L1"⟩], "", "", ""⟩
      (epochNs 2024 6 1 12 0 0) 5 (epochNs 2024 6 1 12 40 0)
      ⟨"2024-06-01T12:40:00Z", 40, "D", "L1"⟩
      ⟨"2024-06-01T12:40:00Z", 35, "D", "L1"⟩
      (by decide) (by decide) (by decide) (by decide) (by decide) (by decide)⟩

/-- C4: the 40-minute gap boundary is exclusive — a 41-minute gap between two
chronological arrivals yields the gap warning, a 40-minute gap never does, and
the gap warning only ever fires when some consecutive pair of parsed
timestamps is strictly more than 40 minutes apart. -/
theorem C4_gap_boundary :
    (∀ (a0 a1 : Arrival) (now t0 : Int),
      parseRFC3339 a0.arrivalTime = some t0 →
      parseRFC3339 a1.arrivalTime = some (t0 + 41 * nsPerMinute) →
      detectQualityIssues [a0, a1] now =
        ("Incomplete data - large gap in arrivals", "warning")) ∧
    (∀ (a0 a1 : Arrival) (now t0 : Int),
      parseRFC3339 a0.arrivalTime = some t0 →
      parseRFC3339 a1.arrivalTime = some (t0 + 40 * nsPerMinute) →
      (detectQualityIssues [a0, a1] now).1 ≠
        "Incomplete data - large gap in arrivals") ∧
    (∀ (arrivals : List Arrival) (now : Int),
      (detectQualityIssues arrivals now).1 =
        "Incomplete data - large gap in arrivals" →
      ∃ l t0 t1 r,
        arrivals.filterMap (fun arr => parseRFC3339 arr.arrivalTime) =
          l ++ t0 :: t1 :: r ∧
        t1 - t0 > 40 * nsPerMinute) := by
  refine ⟨?_, ?_, ?_⟩
  · intro a0 a1 now t0 hp0 hp1
    have hgap : hasLargeGap [t0, t0 + 41 * nsPerMinute] = true := by
      simp [hasLargeGap]
      norm_num [nsPerMinute]
    simp [detectQualityIssues, List.filterMap_cons, hp0, hp1,
      qualityFromTimes, hgap]
  · intro a0 a1 now t0 hp0 hp1
    have hgap : hasLargeGap [t0, t0 + 40 * nsPerMinute] = false := by
      simp [hasLargeGap]
    simp only [detectQualityIssues, List.filterMap_cons, hp0, hp1,
      List.filterMap_nil, List.isEmpty_cons, if_false, Bool.false_eq_true,
      qualityFromTimes, hgap]
    split
    · simp
    · split
      · simp
      · simp
  · intro arrivals now h
    by_cases he : arrivals.isEmpty
    · rw [detectQualityIssues, if_pos he] at h
      simp at h
    · rw [detectQualityIssues, if_neg he] at h
      rcases hts : arrivals.filterMap (fun arr => parseRFC3339 arr.arrivalTime)
        with _ | ⟨t0, rest⟩
      · rw [hts] at h
        simp [qualityFromTimes] at h
      · rw [hts] at h
        by_cases hgap : hasLargeGap (t0 :: rest) = true
        · rcases (hasLargeGap_iff (t0 :: rest)).mp hgap with ⟨l, u0, u1, r, hl, hgt⟩
          exact ⟨l, u0, u1, r, by rw [hts, hl], hgt⟩
        · exfalso
          rw [qualityFromTimes, if_neg hgap] at h
          dsimp only at h
          split at h
          · simp at h
          · split at h
            · simp at h
            · simp at h

/-- Witness for C4: concrete 41- and 40-minute gaps starting at 12:10. -/
theorem C4_witness :
    detectQualityIssues
        [⟨"2024-06-01T12:10:00Z", 0, "D", "L1"⟩,
         ⟨"2024-06-01T12:51:00Z", 0, "D", "L1"⟩]
        (epochNs 2024 6 1 12 0 0) =
      ("Incomplete data - large gap in arrivals", "warning") ∧
    (detectQualityIssues
        [⟨"2024-06-01T12:10:00Z", 0, "D", "L1"⟩,
         ⟨"2024-06-01T12:50:00Z", 0, "D", "L1"⟩]
        (epochNs 2024 6 1 12 0 0)).1 ≠
      "Incomplete data - large gap in arrivals" :=
  ⟨C4_gap_boundary.1
      ⟨"2024-06-01T12:10:00Z", 0, "D", "L1"⟩
      ⟨"2024-06-01T12:51:00Z", 0, "D", "L1"⟩
      (epochNs 2024 6 1 12 0 0) (epochNs 2024 6 1 12 10 0)
      (by decide) (by decide),
    C4_gap_boundary.2.1
      ⟨"2024-06-01T12:10:00Z", 0, "D", "L1"⟩
      ⟨"2024-06-01T12:50:00Z", 0, "D", "L1"⟩
      (epochNs 2024 6 1 12 0 0) (epochNs 2024 6 1 12 10 0)
      (by decide) (by decide)⟩

/-- C9: the upstream decoding loop picks the expected arrival time when
non-empty, else the expected departure time; visits with neither timestamp or
with one failing strict validation are skipped; survivors are emitted in
upstream order with no sorting, deduplication or count limit — i.e. the loop
is exactly a `filterMap` of the spec-side per-visit translation. -/
theorem C9_upstream_order_and_skips (visits : List MonitoredStopVisit) :
    fetchStopArrivals visits = visits.filterMap visitToArrival := by
  unfold fetchStopArrivals
  apply List.filterMap_congr
  intro v _
  by_cases h1 : v.monitoredVehicleJourney.monitoredCall.expectedArrivalTime = ""
  · by_cases h2 : v.monitoredVehicleJourney.monitoredCall.expectedDepartureTime = ""
    · simp [h1, h2, visitToArrival, chosenTimestamp]
    · simp [h1, h2, visitToArrival, chosenTimestamp]
  · simp [h1, visitToArrival, chosenTimestamp]

/-- C10: the quality analyzer is total over unparseable timestamps: its result
only depends on the arrivals whose timestamp parses (unparseable ones are
silently skipped), and an input that is empty or entirely unparseable yields
`("", "good")`. -/
theorem C10_quality_skips_unparseable (arrivals : List Arrival) (now : Int) :
    detectQualityIssues arrivals now =
      detectQualityIssues
        (arrivals.filter (fun a => (parseRFC3339 a.arrivalTime).isSome)) now ∧
    ((∀ a ∈ arrivals, parseRFC3339 a.arrivalTime = none) →
      detectQualityIssues arrivals now = ("", "good")) := by
  constructor
  · rcases harr : arrivals with _ | ⟨a0, rest⟩
    · rfl
    · rw [← harr]
      have hne : arrivals.isEmpty = false := by
        rw [harr]
        rfl
      rcases hflt : arrivals.filter (fun a => (parseRFC3339 a.arrivalTime).isSome)
        with _ | ⟨b0, brest⟩
      · have : arrivals.filterMap (fun arr => parseRFC3339 arr.arrivalTime) = [] := by
          rw [filterMap_eq_filterMap_filter, hflt]
          rfl
        simp [detectQualityIssues, hne, this, hflt, qualityFromTimes]
      · have hfne : (arrivals.filter
            (fun a => (parseRFC3339 a.arrivalTime).isSome)).isEmpty = false := by
          rw [hflt]
          rfl
        rw [detectQualityIssues, detectQualityIssues, if_neg (by simp [hne]),
          if_neg (by simp [hfne]),
          filterMap_eq_filterMap_filter (fun arr => parseRFC3339 arr.arrivalTime) arrivals]
  · intro hall
    have hnil : arrivals.filterMap (fun arr => parseRFC3339 arr.arrivalTime) = [] :=
      List.filterMap_eq_nil_iff.mpr hall
    rcases arrivals with _ | ⟨a0, rest⟩
    · rfl
    · simp [detectQualityIssues, hnil, qualityFromTimes]

/-- Witness for C10 at a concrete list whose only timestamp is unparseable. -/
theorem C10_witness :
    (detectQualityIssues [⟨"not a timestamp", 0, "D", "L1"⟩] 0 =
      detectQualityIssues
        ([⟨"not a timestamp", 0, "D", "L1"⟩].filter
          (fun a => (parseRFC3339 a.arrivalTime).isSome)) 0) ∧
    detectQualityIssues [⟨"not a timestamp", 0, "D", "L1"⟩] 0 = ("", "good") :=
  ⟨(C10_quality_skips_unparseable [⟨"not a timestamp", 0, "D", "L1"⟩] 0).1,
    (C10_quality_skips_unparseable [⟨"not a timestamp", 0, "D", "L1"⟩] 0).2
      (by decide)⟩

/-- C6: within one refresh cycle, every configured stop and direction gets an
entry computed solely from its own fetch outcome (failure isolation); a failed
direction is marked `"Unable to fetch"` with empty arrivals; and the cache is
replaced wholesale regardless of its previous contents — in particular an
all-failing cycle still installs the all-error snapshot. -/
theorem C6_refresh_failure_isolation
    (fetch fetch' : String → String → Option (List Arrival))
    (stops : List Stop) (ts : String) (now : Int) (prev prev' : ArrivalsCache) :
    refreshCacheUpdate prev fetch stops ts now =
      refreshCacheUpdate prev' fetch stops ts now ∧
    (refreshCacheUpdate prev fetch stops ts now).data.stops.length = stops.length ∧
    List.Forall₂ (fun stop out =>
        out.name = stop.name ∧ out.line = stop.line ∧
        List.Forall₂ (fun d od =>
            od = refreshDirection fetch stop.agency d ∧
            (fetch stop.agency d.stopID = none →
              od.error = "Unable to fetch" ∧ od.arrivals = []) ∧
            (fetch stop.agency d.stopID = fetch' stop.agency d.stopID →
              od = refreshDirection fetch' stop.agency d))
          stop.directions out.directions)
      stops (refreshCacheUpdate prev fetch stops ts now).data.stops := by
  refine ⟨rfl, by simp [refreshCacheUpdate, refreshCache], ?_⟩
  show List.Forall₂ _ stops ((refreshCache fetch stops ts).stops)
  rw [refreshCache]
  rw [List.forall₂_map_right_iff]
  rw [List.forall₂_same]
  intro stop _
  refine ⟨rfl, rfl, ?_⟩
  rw [List.forall₂_map_right_iff, List.forall₂_same]
  intro d _
  refine ⟨rfl, ?_, ?_⟩
  · intro hf
    simp [refreshDirection, hf]
  · intro hagree
    rw [refreshDirection, refreshDirection, hagree]

/-- Witness for C6: one stop with one direction whose fetch fails, against two
different previous caches. -/
theorem C6_witness :
    refreshCacheUpdate ⟨⟨[], "old"⟩, 5⟩ (fun _ _ => none)
        [⟨"N", "L", "SF", [⟨"In", "S1"⟩]⟩] "x" 0 =
      refreshCacheUpdate ⟨⟨[], "older"⟩, 7⟩ (fun _ _ => none)
        [⟨"N", "L", "SF", [⟨"In", "S1"⟩]⟩] "x" 0 ∧
    (refreshCacheUpdate ⟨⟨[], "old"⟩, 5⟩ (fun _ _ => none)
        [⟨"N", "L", "SF", [⟨"In", "S1"⟩]⟩] "x" 0).data.stops.length =
      [(⟨"N", "L", "SF", [⟨"In", "S1"⟩]⟩ : Stop)].length ∧
    List.Forall₂ (fun (stop : Stop) (out : StopArrivals) =>
        out.name = stop.name ∧ out.line = stop.line ∧
        List.Forall₂ (fun (d : Direction) (od : DirectionArrivals) =>
            od = refreshDirection (fun _ _ => none) stop.agency d ∧
            ((fun (_ : String) (_ : String) =>
                (none : Option (List Arrival))) stop.agency d.stopID = none →
              od.error = "Unable to fetch" ∧ od.arrivals = []) ∧
            ((fun (_ : String) (_ : String) =>
                (none : Option (List Arrival))) stop.agency d.stopID =
              (fun (_ : String) (_ : String) =>
                (none : Option (List Arrival))) stop.agency d.stopID →
              od = refreshDirection (fun _ _ => none) stop.agency d))
          stop.directions out.directions)
      [⟨"N", "L", "SF", [⟨"In", "S1"⟩]⟩]
      (refreshCacheUpdate ⟨⟨[], "old"⟩, 5⟩ (fun _ _ => none)
        [⟨"N", "L", "SF", [⟨"In", "S1"⟩]⟩] "x" 0).data.stops :=
  C6_refresh_failure_isolation (fun _ _ => none) (fun _ _ => none)
    [⟨"N", "L", "SF", [⟨"In", "S1"⟩]⟩] "x" 0 ⟨⟨[], "old"⟩, 5⟩ ⟨⟨[], "older"⟩, 7⟩

end MuniTracker
